import Mathlib

/-!
Shallow embedding of the healthcare voice-chatbot glue program (`main.py`).

The program is a linear pipeline: record audio or take typed text, transcribe
via an external speech-to-text (STT) service, generate a reply via an external
language-model service, synthesize speech via an external text-to-speech (TTS)
service, and render each artifact in the UI.

External services are modelled as oracles: a function from the request the
program builds to the response the environment returns.  Every local
computation of the program (truncation, field extraction, base64 decoding,
response-shape dispatch, the control flow of the two input handlers) is
embedded faithfully.  Python strings are Lean strings (both sequences of
Unicode code points, so `len` / slicing agree with `String.length` /
`String.take`); byte payloads are lists of naturals.
-/

set_option maxRecDepth 8000

namespace Chatbot

/-- Base64 value of a single character of the standard alphabet
(`A-Z`, `a-z`, `0-9`, `+`, `/`), or `none` for any other character. -/
def b64val (c : Char) : Option Nat :=
  if 'A' ≤ c ∧ c ≤ 'Z' then some (c.toNat - 65)
  else if 'a' ≤ c ∧ c ≤ 'z' then some (c.toNat - 97 + 26)
  else if '0' ≤ c ∧ c ≤ '9' then some (c.toNat - 48 + 52)
  else if c = '+' then some 62
  else if c = '/' then some 63
  else none

/-- Turn a list of 6-bit values (the data characters of a base64 string,
padding removed) into the decoded bytes, three bytes per group of four
values, as in RFC 4648. -/
def b64decodeCore : List Nat → List Nat
  | a :: b :: c :: d :: rest =>
      (a * 4 + b / 16) :: ((b % 16) * 16 + c / 4) :: ((c % 4) * 64 + d) ::
        b64decodeCore rest
  | [a, b] => [a * 4 + b / 16]
  | [a, b, c] => [a * 4 + b / 16, (b % 16) * 16 + c / 4]
  | _ => []

/-- Standard base64 decoding as performed by Python `base64.b64decode` with
its default lenient validation: characters outside the alphabet and the
padding sign are discarded; the remaining length must be a multiple of four
with at most two trailing padding signs and no padding sign inside the data;
`none` models the `binascii.Error` raised on malformed padding. -/
def b64decode (s : String) : Option (List Nat) :=
  let cs := s.data.filter (fun c => (b64val c).isSome || c == '=')
  if cs.length % 4 ≠ 0 then none
  else
    let pad := (cs.reverse.takeWhile (fun c => c == '=')).length
    if 2 < pad then none
    else
      let body := cs.take (cs.length - pad)
      if body.any (fun c => c == '=') then none
      else some (b64decodeCore (body.filterMap b64val))

/-! ### Response generator (`get_response`) -/

/-- Outcome of one call to the external generative-model service: either the
text of the completion, or the message of the exception the call raised. -/
inductive GenResult where
  | ok (text : String)
  | exn (msg : String)
deriving DecidableEq

/-- Fixed instructional wrapper placed around the user message, from the
f-string in `get_response`.  The guidance body is the literal text of the
source prompt. -/
def promptHeader : String :=
  "\n    You are a supportive assistant for healthcare workers — especially " ++
  "nurses and allied health staff — helping with *non-diagnostic tasks only*. " ++
  "Your role is to provide helpful guidance, suggestions, or templates related " ++
  "to tasks such as:\n\n" ++
  "- Patient care support (e.g. maintaining hygiene, basic wound dressing " ++
  "reminders, patient feeding/turning schedules, monitoring & logging vitals " ++
  "— but **no diagnosis, no prescribing, no treatment planning**).  \n" ++
  "- Administrative and documentation help (e.g. filling patient history " ++
  "forms, shift logs, bed allocation planning, discharge paperwork " ++
  "templates).  \n" ++
  "- Communication & coordination (e.g. writing patient-education leaflets on " ++
  "hygiene, nutrition, vaccination; drafting handover notes using SBAR " ++
  "format; guidance on how to counsel patients on lifestyle/ hygiene/ " ++
  "preventive health matters — while clearly stating you are not a " ++
  "doctor).  \n" ++
  "- Logistics and resource support guidance (e.g. checklists for PPE usage, " ++
  "supply inventory templates, reminders for equipment sterilization, " ++
  "assisting with non-clinical workflows like stock management or scheduling " ++
  "transportation).  \n" ++
  "- Public-health / community outreach support tasks (e.g. drafting flyers " ++
  "or messages for health awareness campaigns, outreach scheduling, " ++
  "data-collection templates for screening camps — again, no diagnosis).  \n\n" ++
  "When you respond:\n\n" ++
  "- Always include a **disclaimer** at end: e.g. \"This is only " ++
  "information/support. For any diagnostic, prescribing or treatment-related " ++
  "decisions, consult a qualified medical professional.\"  \n" ++
  "- Never attempt diagnosis, prescribing, or medical decision-making.  \n" ++
  "- Focus on safe, practical, supportive or organizational advice.  \n" ++
  "- Be mindful about **patient privacy and data security**. Advise using " ++
  "anonymized or de-identified data when asking for help drafting documents " ++
  "or protocols.  \n    \n    User\x27s Message: "

/-- Full prompt sent to the generation service for a given user message. -/
def mkPrompt (user_text : String) : String :=
  promptHeader ++ user_text ++ "\n    "

/-- `get_response` from the source: build the prompt, call the generation
service, return its text; any exception is caught and rendered as a string
starting with `Error generating response: `. -/
def get_response (user_text : String) (gen : String → GenResult) : String :=
  match gen (mkPrompt user_text) with
  | .ok t => t
  | .exn e => "Error generating response: " ++ e

/-! ### Speech-to-text adapter (`stt_from_audio`) -/

/-- Outcome of the HTTP upload to the transcription endpoint, as the program
observes it: either a failure raised before a JSON body is available (network
error, non-2xx status from `raise_for_status`, or an unparsable body), or the
JSON envelope with its optional `transcript` and `text` string fields. -/
inductive SttResponse where
  | httpError (detail : String)
  | notJson (detail : String)
  | jsonBody (transcript text : Option String)
deriving DecidableEq

/-- `stt_from_audio` from the source: on a JSON envelope it evaluates
`resp.json().get("transcript", "") or resp.json().get("text", "")`, so the
`transcript` value is used when present and non-empty (Python truthiness) and
otherwise the `text` value (defaulting to the empty string); any exception is
re-raised with its message wrapped as `STT Error: `. -/
def stt_from_audio (resp : SttResponse) : Except String String :=
  match resp with
  | .httpError detail => .error ("STT Error: " ++ detail)
  | .notJson detail => .error ("STT Error: " ++ detail)
  | .jsonBody t x =>
      let a := t.getD ""
      .ok (if a ≠ "" then a else x.getD "")

/-! ### Text-to-speech adapter (`tts_from_text`) -/

/-- JSON request body the program posts to the synthesis endpoint. -/
structure TTSPayload where
  inputs : List String
  target_language_code : String
  speaker : String
  pitch : Int
  pace : Rat
  loudness : Rat
  speech_sample_rate : Nat
  enable_preprocessing : Bool
  model : String
deriving DecidableEq

/-- Body of a 2xx synthesis response, as the program observes it after
`resp.json()`: a JSON object whose `audios` key holds a list of strings
(`raw` is the raw body `resp.content`), a JSON value without an `audios`
key, or a body that is not valid JSON at all, in which case `resp.json()`
raises an exception with message `detail`. -/
inductive TTSBody where
  | jsonWithAudios (audios : List String) (raw : List Nat)
  | jsonNoAudios (raw : List Nat)
  | notJson (raw : List Nat) (detail : String)
deriving DecidableEq

/-- Outcome of the HTTP post to the synthesis endpoint: a 2xx response with
its body, or a failure raised by the network call or by
`raise_for_status`. -/
inductive HttpResult where
  | success (body : TTSBody)
  | failure (msg : String)
deriving DecidableEq

/-- Truncation step of `tts_from_text`: a text longer than 500 characters is
replaced by its first 500 characters followed by `...`. -/
def ttsTruncate (text : String) : String :=
  if 500 < text.length then text.take 500 ++ "..." else text

/-- The JSON payload `tts_from_text` builds for a given text and target
language code, with the fixed voice and prosody parameters of the source. -/
def ttsPayload (text lang : String) : TTSPayload :=
  { inputs := [ttsTruncate text]
    target_language_code := lang
    speaker := "meera"
    pitch := 0
    pace := 1
    loudness := 3 / 2
    speech_sample_rate := 8000
    enable_preprocessing := true
    model := "bulbul:v1" }

/-- Handling of a 2xx synthesis response body: when the `audios` key is
present and the list non-empty, base64-decode its first entry (a decoding
failure raises, with the library detail abstracted as `Incorrect padding`);
otherwise return the raw body bytes; a non-JSON body raises the exception of
`resp.json()`.  Error details are wrapped by the caller. -/
def ttsHandleBody (body : TTSBody) : Except String (List Nat) :=
  match body with
  | .jsonWithAudios audios raw =>
      match audios with
      | a :: _ =>
          match b64decode a with
          | some bytes => .ok bytes
          | none => .error "Incorrect padding"
      | [] => .ok raw
  | .jsonNoAudios raw => .ok raw
  | .notJson _ detail => .error detail

/-- `tts_from_text` from the source: truncate the text, post the payload to
the synthesis service, dispatch on the response shape; every exception along
the way is re-raised with its message wrapped as `TTS Error: `. -/
def tts_from_text (text lang : String) (net : TTSPayload → HttpResult) :
    Except String (List Nat) :=
  match net (ttsPayload text lang) with
  | .failure msg => .error ("TTS Error: " ++ msg)
  | .success body =>
      match ttsHandleBody body with
      | .ok bytes => .ok bytes
      | .error detail => .error ("TTS Error: " ++ detail)

/-! ### UI glue: language table and the two input handlers -/

/-- The ten-entry output-language table of the UI. -/
def lang_options : List (String × String) :=
  [("Bengali", "bn-IN"), ("Hindi", "hi-IN"), ("English", "en-IN"),
   ("Tamil", "ta-IN"), ("Telugu", "te-IN"), ("Kannada", "kn-IN"),
   ("Malayalam", "ml-IN"), ("Marathi", "mr-IN"), ("Gujarati", "gu-IN"),
   ("Punjabi", "pa-IN")]

/-- Observable step of one interaction, in program order: each UI rendering
call of the handlers, plus instrumentation events recording that the
generation adapter or the synthesis adapter was invoked and with which
argument. -/
inductive Event where
  | audioPlayback (bytes : List Nat)
  | successMsg (s : String)
  | markdown (s : String)
  | infoReply (s : String)
  | audioReply (bytes : List Nat)
  | warning (s : String)
  | errorMsg (s : String)
  | calledGen (user_text : String)
  | calledTts (text : String)
deriving DecidableEq

/-- Voice input path of the UI (the `if audio_data:` block): play back the
recording, transcribe, and if the transcript is non-empty (Python truthiness)
generate a reply, render it, and attempt synthesis, warning on a synthesis
failure; an empty transcript ends the interaction with a notice; an STT
exception ends it with an error banner. -/
def voice_handler (user_audio : List Nat) (sttResp : SttResponse)
    (gen : String → GenResult) (net : TTSPayload → HttpResult)
    (lang : String) : List Event :=
  Event.audioPlayback user_audio ::
  match stt_from_audio sttResp with
  | .error e => [Event.errorMsg ("❌ Error: " ++ e)]
  | .ok user_text =>
      if user_text ≠ "" then
        Event.successMsg ("**You said:** " ++ user_text) ::
        Event.calledGen user_text ::
        (let reply := get_response user_text gen
         Event.markdown "### 🤖 Assistant Response:" ::
         Event.infoReply reply ::
         Event.calledTts reply ::
         (match tts_from_text reply lang net with
          | .ok audio => [Event.audioReply audio]
          | .error e => [Event.warning ("Could not generate audio: " ++ e)]))
      else [Event.warning "No speech detected. Please try again."]

/-- Typed-text path of the UI (the submit-button block): a non-empty input
(Python truthiness) is sent to the generator, the reply rendered and
synthesis attempted, warning on a synthesis failure; an empty input yields a
notice.  `get_response` never raises and the synthesis call is guarded by its
own handler, so the outer error banner of the source is unreachable on this
path. -/
def text_handler (text_input : String) (gen : String → GenResult)
    (net : TTSPayload → HttpResult) (lang : String) : List Event :=
  if text_input ≠ "" then
    Event.calledGen text_input ::
    (let reply := get_response text_input gen
     Event.markdown "### 🤖 Assistant Response:" ::
     Event.infoReply reply ::
     Event.calledTts reply ::
     (match tts_from_text reply lang net with
      | .ok audio => [Event.audioReply audio]
      | .error e => [Event.warning ("Could not generate audio: " ++ e)]))
  else [Event.warning "Please enter a message first."]

deriving instance DecidableEq for Except

/-! ### Claims -/

/-- C1: for every reply longer than 500 characters, the text placed in the
synthesis request equals the first 500 characters of the reply followed by
the ellipsis marker `...`; a reply of length at most 500 is submitted
unchanged; in all cases the submitted text has length at most 503. -/
theorem tts_truncation_spec (text lang : String) :
    (500 < text.length →
      (ttsPayload text lang).inputs = [text.take 500 ++ "..."]) ∧
    (text.length ≤ 500 → (ttsPayload text lang).inputs = [text]) ∧
    ∀ s ∈ (ttsPayload text lang).inputs, s.length ≤ 503 := by
  refine ⟨fun h => ?_, fun h => ?_, fun s hs => ?_⟩
  · simp [ttsPayload, ttsTruncate, h]
  · simp [ttsPayload, ttsTruncate, Nat.not_lt.mpr h]
  · simp only [ttsPayload, List.mem_singleton] at hs
    subst hs
    unfold ttsTruncate
    split
    · have h3 : ("..." : String).length = 3 := rfl
      have htk : (text.take 500).length = min 500 text.data.length := by
        rw [String.take_eq]
        exact List.length_take 500 text.data
      rw [String.length_append, htk, h3]
      have := Nat.min_le_left 500 text.data.length
      omega
    · rename_i h
      rw [Nat.not_lt] at h
      omega

/-- Witness for C1 at a 501-character reply and at a short reply. -/
theorem tts_truncation_spec_witness :
    (ttsPayload (String.mk (List.replicate 501 'a')) "bn-IN").inputs =
      [(String.mk (List.replicate 501 'a')).take 500 ++ "..."] ∧
    (ttsPayload "hi" "bn-IN").inputs = ["hi"] :=
  ⟨(tts_truncation_spec (String.mk (List.replicate 501 'a')) "bn-IN").1
      (by decide),
   (tts_truncation_spec "hi" "bn-IN").2.1 (by decide)⟩

/-- C2 counterexample: a whitespace-only submission `" "` is truthy in
Python, so the handler calls the generation adapter and never shows the
`Please enter a message first.` notice, contradicting the claim for
whitespace-only inputs. -/
theorem typed_whitespace_counterexample :
    Event.calledGen " " ∈
      text_handler " " (fun _ => .ok "ok")
        (fun _ => .success (.jsonNoAudios [1])) "en-IN" ∧
    Event.warning "Please enter a message first." ∉
      text_handler " " (fun _ => .ok "ok")
        (fun _ => .success (.jsonNoAudios [1])) "en-IN" := by
  decide

/-- C2 amended: for the empty typed submission the handler shows the
`Please enter a message first.` notice and never calls the generation
adapter; a whitespace-only non-empty submission is processed as an ordinary
message. -/
theorem typed_empty_input_notice (gen : String → GenResult)
    (net : TTSPayload → HttpResult) (lang : String) :
    text_handler "" gen net lang =
      [Event.warning "Please enter a message first."] ∧
    ∀ s, Event.calledGen s ∉ text_handler "" gen net lang := by
  constructor
  · simp [text_handler]
  · intro s
    simp [text_handler]

/-- C3 counterexample: a 2xx response whose body is raw non-JSON bytes makes
`resp.json()` raise, so the adapter fails with a `TTS Error: ` message
instead of returning the raw bytes unchanged. -/
theorem tts_raw_bytes_counterexample :
    tts_from_text "hi" "en-IN"
        (fun _ => .success (.notJson [82, 73, 70, 70] "Expecting value")) =
      .error "TTS Error: Expecting value" ∧
    tts_from_text "hi" "en-IN"
        (fun _ => .success (.notJson [82, 73, 70, 70] "Expecting value")) ≠
      .ok [82, 73, 70, 70] := by
  decide

/-- C3 amended: for a 2xx response whose body parses as JSON with a
non-empty `audios` list, the adapter returns the standard base64 decoding of
the first entry; for a body that parses as JSON without an `audios` key, it
returns the raw body bytes unchanged; for a raw non-JSON body it raises a
`TTS Error: ` failure instead of returning the bytes. -/
theorem tts_response_shape_spec (s : String) (bytes raw : List Nat)
    (rest : List String) (text lang detail : String)
    (hb : b64decode s = some bytes) :
    tts_from_text text lang
        (fun _ => .success (.jsonWithAudios (s :: rest) raw)) = .ok bytes ∧
    tts_from_text text lang (fun _ => .success (.jsonNoAudios raw)) =
      .ok raw ∧
    tts_from_text text lang (fun _ => .success (.notJson raw detail)) =
      .error ("TTS Error: " ++ detail) := by
  refine ⟨?_, rfl, rfl⟩
  simp [tts_from_text, ttsHandleBody, hb]

/-- Witness for C3 amended, with `aGk=` decoding to the bytes of `hi`. -/
theorem tts_response_shape_spec_witness :
    tts_from_text "hi" "en-IN"
        (fun _ => .success (.jsonWithAudios ["aGk="] [7])) =
      .ok [104, 105] ∧
    tts_from_text "hi" "en-IN" (fun _ => .success (.jsonNoAudios [7])) =
      .ok [7] ∧
    tts_from_text "hi" "en-IN" (fun _ => .success (.notJson [7] "bad")) =
      .error ("TTS Error: " ++ "bad") :=
  tts_response_shape_spec "aGk=" [104, 105] [7] [] "hi" "en-IN" "bad"
    (by decide)

/-- C4: whenever transcription yields the empty string, the voice handler
shows the `No speech detected` notice and stops: its trace holds exactly the
playback and the notice, and neither the generation adapter nor the
synthesis adapter is invoked. -/
theorem voice_empty_transcript_stops (ua : List Nat) (sttResp : SttResponse)
    (gen : String → GenResult) (net : TTSPayload → HttpResult)
    (lang : String) (h : stt_from_audio sttResp = .ok "") :
    voice_handler ua sttResp gen net lang =
      [Event.audioPlayback ua,
       Event.warning "No speech detected. Please try again."] ∧
    (∀ s, Event.calledGen s ∉ voice_handler ua sttResp gen net lang) ∧
    (∀ s, Event.calledTts s ∉ voice_handler ua sttResp gen net lang) := by
  have htrace : voice_handler ua sttResp gen net lang =
      [Event.audioPlayback ua,
       Event.warning "No speech detected. Please try again."] := by
    simp [voice_handler, h]
  refine ⟨htrace, fun s => ?_, fun s => ?_⟩ <;> rw [htrace] <;> simp

/-- Witness for C4 on the envelope with neither field present. -/
theorem voice_empty_transcript_stops_witness :
    voice_handler [1] (.jsonBody none none) (fun _ => .ok "ok")
        (fun _ => .failure "down") "bn-IN" =
      [Event.audioPlayback [1],
       Event.warning "No speech detected. Please try again."] ∧
    (∀ s, Event.calledGen s ∉
      voice_handler [1] (.jsonBody none none) (fun _ => .ok "ok")
        (fun _ => .failure "down") "bn-IN") ∧
    (∀ s, Event.calledTts s ∉
      voice_handler [1] (.jsonBody none none) (fun _ => .ok "ok")
        (fun _ => .failure "down") "bn-IN") :=
  voice_empty_transcript_stops [1] (.jsonBody none none) (fun _ => .ok "ok")
    (fun _ => .failure "down") "bn-IN" rfl

/-- C5: when the generation call raises, `get_response` returns (rather than
propagates) a string beginning with `Error generating response:`, and the
voice handler still submits that returned message to the synthesis
adapter. -/
theorem generation_failure_degrades (t m lang : String) (ua : List Nat)
    (sttResp : SttResponse) (gen : String → GenResult)
    (net : TTSPayload → HttpResult)
    (hstt : stt_from_audio sttResp = .ok t) (ht : t ≠ "")
    (hg : gen (mkPrompt t) = .exn m) :
    (∃ rest, get_response t gen = "Error generating response:" ++ rest) ∧
    Event.calledTts (get_response t gen) ∈
      voice_handler ua sttResp gen net lang := by
  have hr : get_response t gen = "Error generating response: " ++ m := by
    simp [get_response, hg]
  constructor
  · refine ⟨" " ++ m, ?_⟩
    have hsp : ("Error generating response:" ++ " " : String) =
        "Error generating response: " := rfl
    rw [hr, ← String.append_assoc, hsp]
  · simp [voice_handler, hstt, ht]

/-- Witness for C5 with a generation oracle that always raises. -/
theorem generation_failure_degrades_witness :
    (∃ rest, get_response "hi" (fun _ => GenResult.exn "boom") =
      "Error generating response:" ++ rest) ∧
    Event.calledTts (get_response "hi" (fun _ => GenResult.exn "boom")) ∈
      voice_handler [1] (.jsonBody (some "hi") none)
        (fun _ => GenResult.exn "boom") (fun _ => HttpResult.failure "down")
        "en-IN" :=
  generation_failure_degrades "hi" "boom" "en-IN" [1]
    (.jsonBody (some "hi") none) (fun _ => GenResult.exn "boom")
    (fun _ => HttpResult.failure "down") rfl (by decide) rfl

/-- C6: on both the voice path and the typed path, a synthesis failure after
a reply was generated leaves the reply text rendered and shows a warning in
place of the audio; no error banner and no audio playback of the reply
occur. -/
theorem tts_failure_isolated (t u e lang : String) (ua : List Nat)
    (sttResp : SttResponse) (gen : String → GenResult)
    (net : TTSPayload → HttpResult)
    (hstt : stt_from_audio sttResp = .ok t) (ht : t ≠ "") (hu : u ≠ "")
    (hv : tts_from_text (get_response t gen) lang net = .error e)
    (hx : tts_from_text (get_response u gen) lang net = .error e) :
    (Event.infoReply (get_response t gen) ∈
        voice_handler ua sttResp gen net lang ∧
     Event.warning ("Could not generate audio: " ++ e) ∈
        voice_handler ua sttResp gen net lang ∧
     (∀ s, Event.errorMsg s ∉ voice_handler ua sttResp gen net lang) ∧
     (∀ b, Event.audioReply b ∉ voice_handler ua sttResp gen net lang)) ∧
    (Event.infoReply (get_response u gen) ∈ text_handler u gen net lang ∧
     Event.warning ("Could not generate audio: " ++ e) ∈
        text_handler u gen net lang ∧
     (∀ s, Event.errorMsg s ∉ text_handler u gen net lang) ∧
     (∀ b, Event.audioReply b ∉ text_handler u gen net lang)) := by
  have hvt : voice_handler ua sttResp gen net lang =
      [Event.audioPlayback ua,
       Event.successMsg ("**You said:** " ++ t),
       Event.calledGen t,
       Event.markdown "### 🤖 Assistant Response:",
       Event.infoReply (get_response t gen),
       Event.calledTts (get_response t gen),
       Event.warning ("Could not generate audio: " ++ e)] := by
    simp [voice_handler, hstt, ht, hv]
  have htt : text_handler u gen net lang =
      [Event.calledGen u,
       Event.markdown "### 🤖 Assistant Response:",
       Event.infoReply (get_response u gen),
       Event.calledTts (get_response u gen),
       Event.warning ("Could not generate audio: " ++ e)] := by
    simp [text_handler, hu, hx]
  refine ⟨⟨?_, ?_, fun s => ?_, fun b => ?_⟩,
          ⟨?_, ?_, fun s => ?_, fun b => ?_⟩⟩ <;>
    first
      | (rw [hvt]; simp)
      | (rw [htt]; simp)

/-- Witness for C6 with a synthesis oracle whose network call fails. -/
theorem tts_failure_isolated_witness :
    (Event.infoReply (get_response "hi" (fun _ => GenResult.ok "ok")) ∈
        voice_handler [1] (.jsonBody (some "hi") none)
          (fun _ => GenResult.ok "ok") (fun _ => HttpResult.failure "down")
          "en-IN" ∧
     Event.warning ("Could not generate audio: " ++ "TTS Error: down") ∈
        voice_handler [1] (.jsonBody (some "hi") none)
          (fun _ => GenResult.ok "ok") (fun _ => HttpResult.failure "down")
          "en-IN" ∧
     (∀ s, Event.errorMsg s ∉
        voice_handler [1] (.jsonBody (some "hi") none)
          (fun _ => GenResult.ok "ok") (fun _ => HttpResult.failure "down")
          "en-IN") ∧
     (∀ b, Event.audioReply b ∉
        voice_handler [1] (.jsonBody (some "hi") none)
          (fun _ => GenResult.ok "ok") (fun _ => HttpResult.failure "down")
          "en-IN")) ∧
    (Event.infoReply (get_response "yo" (fun _ => GenResult.ok "ok")) ∈
        text_handler "yo" (fun _ => GenResult.ok "ok")
          (fun _ => HttpResult.failure "down") "en-IN" ∧
     Event.warning ("Could not generate audio: " ++ "TTS Error: down") ∈
        text_handler "yo" (fun _ => GenResult.ok "ok")
          (fun _ => HttpResult.failure "down") "en-IN" ∧
     (∀ s, Event.errorMsg s ∉
        text_handler "yo" (fun _ => GenResult.ok "ok")
          (fun _ => HttpResult.failure "down") "en-IN") ∧
     (∀ b, Event.audioReply b ∉
        text_handler "yo" (fun _ => GenResult.ok "ok")
          (fun _ => HttpResult.failure "down") "en-IN")) :=
  tts_failure_isolated "hi" "yo" "TTS Error: down" "en-IN" [1]
    (.jsonBody (some "hi") none) (fun _ => GenResult.ok "ok")
    (fun _ => HttpResult.failure "down") rfl (by decide) (by decide)
    (by decide) (by decide)

/-- C7: each of the ten language names of the UI table maps to its fixed
locale code, and the language code handed to `tts_from_text` is placed
unchanged in the `target_language_code` field of the synthesis request. -/
theorem language_table_routing :
    lang_options.lookup "Bengali" = some "bn-IN" ∧
    lang_options.lookup "Hindi" = some "hi-IN" ∧
    lang_options.lookup "English" = some "en-IN" ∧
    lang_options.lookup "Tamil" = some "ta-IN" ∧
    lang_options.lookup "Telugu" = some "te-IN" ∧
    lang_options.lookup "Kannada" = some "kn-IN" ∧
    lang_options.lookup "Malayalam" = some "ml-IN" ∧
    lang_options.lookup "Marathi" = some "mr-IN" ∧
    lang_options.lookup "Gujarati" = some "gu-IN" ∧
    lang_options.lookup "Punjabi" = some "pa-IN" ∧
    ∀ text lang : String,
      (ttsPayload text lang).target_language_code = lang := by
  refine ⟨?_, ?_, ?_, ?_, ?_, ?_, ?_, ?_, ?_, ?_, fun text lang => rfl⟩ <;>
    decide

/-- C8 counterexample: on the envelope whose `transcript` field is present
but empty and whose `text` field is `hi`, the adapter returns `hi` (Python
`or` falls through on the empty string), not the value of the `transcript`
field. -/
theorem stt_empty_transcript_counterexample :
    stt_from_audio (.jsonBody (some "") (some "hi")) = .ok "hi" ∧
    stt_from_audio (.jsonBody (some "") (some "hi")) ≠ .ok "" := by
  decide

/-- C8 amended: the adapter returns the `transcript` value when it is
present and non-empty, and otherwise the `text` value (defaulting to the
empty string), so it falls back not only when `transcript` is absent but
also when it is empty; any failure of the call is surfaced with its message
wrapped as `STT Error: `. -/
theorem stt_extraction_spec (ts e : String) (x : Option String)
    (h : ts ≠ "") :
    stt_from_audio (.jsonBody (some ts) x) = .ok ts ∧
    stt_from_audio (.jsonBody none x) = .ok (x.getD "") ∧
    stt_from_audio (.jsonBody (some "") x) = .ok (x.getD "") ∧
    stt_from_audio (.httpError e) = .error ("STT Error: " ++ e) := by
  refine ⟨?_, rfl, rfl, rfl⟩
  simp [stt_from_audio, h]

/-- Witness for C8 amended at concrete envelopes. -/
theorem stt_extraction_spec_witness :
    stt_from_audio (.jsonBody (some "hi") (some "yo")) = .ok "hi" ∧
    stt_from_audio (.jsonBody none (some "yo")) =
      .ok ((some "yo").getD "") ∧
    stt_from_audio (.jsonBody (some "") (some "yo")) =
      .ok ((some "yo").getD "") ∧
    stt_from_audio (.httpError "down") =
      .error ("STT Error: " ++ "down") :=
  stt_extraction_spec "hi" "down" (some "yo") (by decide)

/-- C9: an envelope with neither `transcript` nor `text`, or with both
empty, makes `stt_from_audio` return the empty string rather than raise,
and the voice handler then ends the interaction with the
`No speech detected` notice and no error banner. -/
theorem stt_missing_fields_empty (ua : List Nat) (gen : String → GenResult)
    (net : TTSPayload → HttpResult) (lang : String) :
    stt_from_audio (.jsonBody none none) = .ok "" ∧
    stt_from_audio (.jsonBody (some "") (some "")) = .ok "" ∧
    voice_handler ua (.jsonBody none none) gen net lang =
      [Event.audioPlayback ua,
       Event.warning "No speech detected. Please try again."] ∧
    (∀ s, Event.errorMsg s ∉
      voice_handler ua (.jsonBody none none) gen net lang) ∧
    voice_handler ua (.jsonBody (some "") (some "")) gen net lang =
      [Event.audioPlayback ua,
       Event.warning "No speech detected. Please try again."] ∧
    (∀ s, Event.errorMsg s ∉
      voice_handler ua (.jsonBody (some "") (some "")) gen net lang) := by
  have h1 : voice_handler ua (.jsonBody none none) gen net lang =
      [Event.audioPlayback ua,
       Event.warning "No speech detected. Please try again."] := by
    simp [voice_handler, stt_from_audio]
  have h2 : voice_handler ua (.jsonBody (some "") (some "")) gen net lang =
      [Event.audioPlayback ua,
       Event.warning "No speech detected. Please try again."] := by
    simp [voice_handler, stt_from_audio]
  refine ⟨rfl, rfl, h1, fun s => ?_, h2, fun s => ?_⟩
  · rw [h1]; simp
  · rw [h2]; simp

/-- C10: a 2xx JSON response whose `audios` key holds the empty list takes
the `else` branch (the guard `len(...) > 0` fails), so no indexing into the
list occurs and the raw body bytes are returned. -/
theorem tts_empty_audios_list_safe (text lang : String) (raw : List Nat) :
    tts_from_text text lang
      (fun _ => .success (.jsonWithAudios [] raw)) = .ok raw := rfl

end Chatbot
